import Mathlib

/-!
Shallow embedding of the authentication and session-lifecycle component of
the sociofi backend (src/modules/auth, src/middleware/auth.ts,
src/utils/jwt.ts, src/models/*.model.ts), together with theorems settling
the specification claims about it.

Modelling conventions:
- Mongo collections are Lean lists; `findOne` is `List.find?` (first match),
  `deleteOne` is `List.eraseP` (erase first match), `deleteMany` is
  `List.filter` with the negated predicate, `create` appends, and
  `updateOne` updates the first matching element.
- A signed JWT is an inductive value: either a `signed` constructor holding
  the token's claims (the signature is valid by construction) or
  `malformed` (anything that fails signature verification). `jwt.verify`
  checks the signature and the embedded expiry against the current time.
- `uuidv4` jti generation is modelled by a `nextJti` counter in the state;
  freshness of generated jtis is carried as an explicit well-formedness
  hypothesis where a theorem needs it.
- Time is a `Nat` field `now` of the state; wall-clock durations are in
  seconds (15m = 900, 1h = 3600, 7d = 604800).
- `argon2` is a parameter: `verify` may return a boolean or raise
  (`Except Unit Bool`), `hash` is an arbitrary function, mirroring that the
  library is external.
- Thrown JS exceptions are `Except.error`; state writes performed before a
  throw persist in the returned state (no transactions in the source).
-/

namespace Sociofi

/-- Mirrors `IUser` (src/models/user.model.ts): the fields the auth
component reads and writes. -/
structure User where
  _id : Nat
  name : String
  email : String
  password_hash : String
  role : String
  is_active : Bool
  token_version : Nat
  last_login : Option Nat := none
deriving DecidableEq, Repr

/-- Mirrors `IRefreshToken` (src/models/refreshToken.model.ts):
`(user_id, token, expires_at)` where `token` stores the jti. -/
structure RefreshRecord where
  user_id : Nat
  token : Nat
  expires_at : Nat
deriving DecidableEq, Repr

/-- Mirrors `IPasswordReset` (src/models/passwordReset.model.ts). -/
structure ResetRecord where
  user_id : Nat
  token : Nat
  used : Bool
  used_at : Option Nat
  expires_at : Nat
deriving DecidableEq, Repr

/-- Mirrors the audit-log entries written through
`AuthService.logActivity`; only the fields the claims mention. -/
structure AuditEntry where
  actor_id : Nat
  action : String
deriving DecidableEq, Repr

/-- An outbound email handed to `sendMail` (src/utils/mail.ts); the `to`
field is named `mail_to` because `to` is reserved in Lean. -/
structure Mail where
  mail_to : String
  subject : String
deriving DecidableEq, Repr

/-- The persistent and observable state threaded through the operations:
the Mongo collections, the sent mails, internal console log lines, the
uuid supply and the clock. -/
structure DB where
  users : List User
  refreshTokens : List RefreshRecord
  passwordResets : List ResetRecord
  auditLogs : List AuditEntry
  sentMails : List Mail
  logLines : List String
  nextJti : Nat
  now : Nat
deriving Repr

/-- The argon2 library as an external parameter: `verify` may raise
(malformed stored hash), `hash` is opaque but deterministic. -/
structure Argon2 where
  verify : String → String → Except Unit Bool
  hash : String → String

/-- Claims carried by a signed access token
(`JWTService.generateAccessToken`): `{userId, email, role, tokenVersion}`
plus the `exp` claim set from `expiresIn: '15m'`. -/
structure AccessClaims where
  userId : Nat
  email : String
  role : String
  tokenVersion : Nat
  exp : Nat
deriving DecidableEq, Repr

/-- An access-token string: either a validly signed token with its claims,
or anything that fails signature/issuer/audience verification. -/
inductive AccessTok where
  | signed (c : AccessClaims)
  | malformed
deriving DecidableEq, Repr

/-- Claims carried by a signed refresh token
(`JWTService.generateRefreshToken`): `{userId, tokenVersion}`, the `jti`
from `jwtid`, and `exp` from `expiresIn: '7d'`. -/
structure RefreshClaims where
  userId : Nat
  tokenVersion : Nat
  jti : Nat
  exp : Nat
deriving DecidableEq, Repr

/-- A refresh-token string: validly signed or not. -/
inductive RefreshTok where
  | signed (c : RefreshClaims)
  | malformed
deriving DecidableEq, Repr

/-- Claims carried by a signed password-reset token
(`JWTService.generatePasswordResetToken`): `{userId, tokenVersion}`, the
`jti`, and `exp` from `expiresIn: '1h'`. -/
structure ResetClaims where
  userId : Nat
  tokenVersion : Nat
  jti : Nat
  exp : Nat
deriving DecidableEq, Repr

/-- A password-reset-token string: validly signed or not. -/
inductive ResetTok where
  | signed (c : ResetClaims)
  | malformed
deriving DecidableEq, Repr

/-- The payload returned by `JWTService.verifyAccessToken`. -/
structure JWTPayload where
  userId : Nat
  email : String
  role : String
  tokenVersion : Nat
deriving DecidableEq, Repr

/-- The payload returned by `JWTService.verifyRefreshToken`. -/
structure RefreshTokenPayload where
  userId : Nat
  jti : Nat
  tokenVersion : Nat
deriving DecidableEq, Repr

/-- The payload returned by `JWTService.verifyPasswordResetToken`; `jti`
is optional there (`jti?: string`). -/
structure ResetTokenPayload where
  userId : Nat
  tokenVersion : Nat
  jti : Option Nat
deriving DecidableEq, Repr

/-- Errors surfaced by the modelled operations. `unauthorized msg` is
`UnauthorizedError(msg)` (HTTP 401, src/utils/http.ts); `generic msg` is a
plain `Error(msg)`; `libraryError` is an exception raised by an external
library and not caught by the operation. -/
inductive AuthErr where
  | unauthorized (msg : String)
  | generic (msg : String)
  | libraryError
deriving DecidableEq, Repr

/-- HTTP status of an error: `UnauthorizedError` carries 401, a plain
`Error` or an uncaught library exception reaches the generic handler
as 500. -/
def AuthErr.statusCode : AuthErr → Nat
  | .unauthorized _ => 401
  | .generic _ => 500
  | .libraryError => 500

/-- Message string of an error as seen by the caller. -/
def AuthErr.message : AuthErr → String
  | .unauthorized msg => msg
  | .generic msg => msg
  | .libraryError => "library error"

/-! ### JWT service (src/utils/jwt.ts) -/

/-- Models `generateAccessToken`: signs `{userId, email, role, tokenVersion}`
with `expiresIn: '15m'`. -/
def generateAccessToken (now userId : Nat) (email role : String)
    (tokenVersion : Nat) : AccessTok :=
  .signed ⟨userId, email, role, tokenVersion, now + 900⟩

/-- Models `generateRefreshToken`: signs `{userId, tokenVersion}` with a fresh
`jti` and `expiresIn: '7d'`; returns the token together with the jti. -/
def generateRefreshToken (now jti userId tokenVersion : Nat) :
    RefreshTok × Nat :=
  (.signed ⟨userId, tokenVersion, jti, now + 604800⟩, jti)

/-- Models `generatePasswordResetToken`: signs `{userId, tokenVersion}` with a
fresh `jti` and `expiresIn: '1h'`. -/
def generatePasswordResetToken (now jti userId tokenVersion : Nat) :
    ResetTok × Nat :=
  (.signed ⟨userId, tokenVersion, jti, now + 3600⟩, jti)

/-- Models `verifyAccessToken`: `jwt.verify` against the access secret; fails on
a bad signature or a passed `exp`. -/
def verifyAccessToken (now : Nat) : AccessTok → Option JWTPayload
  | .signed c => if now < c.exp then some ⟨c.userId, c.email, c.role, c.tokenVersion⟩ else none
  | .malformed => none

/-- Models `verifyRefreshToken`: `jwt.verify` against the refresh secret. -/
def verifyRefreshToken (now : Nat) : RefreshTok → Option RefreshTokenPayload
  | .signed c => if now < c.exp then some ⟨c.userId, c.jti, c.tokenVersion⟩ else none
  | .malformed => none

/-- Models `verifyPasswordResetToken`: `jwt.verify` against the access secret,
returning the decoded `jti` as well. -/
def verifyPasswordResetToken (now : Nat) : ResetTok → Option ResetTokenPayload
  | .signed c => if now < c.exp then some ⟨c.userId, c.tokenVersion, some c.jti⟩ else none
  | .malformed => none

/-- Models `getRefreshTokenExpiry`: now plus 7 days. -/
def getRefreshTokenExpiry (now : Nat) : Nat := now + 604800

/-- Models `getPasswordResetExpiry`: now plus 1 hour. -/
def getPasswordResetExpiry (now : Nat) : Nat := now + 3600

/-- The `Authorization` request header as the middleware sees it: absent,
present but not a `Bearer` scheme, or a bearer token. -/
inductive AuthHeader where
  | missing
  | notBearer
  | bearer (t : AccessTok)
deriving DecidableEq, Repr

/-- Models `extractBearerToken`: returns the token after `Bearer `, else null. -/
def extractBearerToken : AuthHeader → Option AccessTok
  | .bearer t => some t
  | _ => none

/-! ### List helpers modelling Mongo single-document writes -/

/-- Mongo `updateOne`: apply `f` to the first element satisfying `p`. -/
def updateFirst (p : α → Bool) (f : α → α) : List α → List α
  | [] => []
  | a :: l => if p a then f a :: l else a :: updateFirst p f l

/-! ### AuthService (src/modules/auth: the full service revision that
implements the password-reset flow) -/

/-- Result of a successful `AuthService.login`: sanitized user plus the
token pair. Only the fields the claims mention are kept. -/
structure LoginResult where
  userId : Nat
  accessToken : AccessTok
  refreshToken : RefreshTok
deriving DecidableEq, Repr

/-- Models `AuthService.login(email, password, ip)`: find active user by email;
throw `UnauthorizedError("Invalid credentials")` if absent; `argon2.verify`
the password (an exception from the library is NOT caught and propagates);
on success mint the token pair, persist the refresh record, write the
`login` audit entry and set `last_login`. -/
def login (A : Argon2) (s : DB) (email password ip : String) :
    Except AuthErr LoginResult × DB :=
  match s.users.find? (fun u => u.email == email && u.is_active) with
  | none => (.error (.unauthorized "Invalid credentials"), s)
  | some user =>
    match A.verify user.password_hash password with
    | .error _ => (.error .libraryError, s)
    | .ok false => (.error (.unauthorized "Invalid credentials"), s)
    | .ok true =>
      let accessToken :=
        generateAccessToken s.now user._id user.email user.role user.token_version
      let (refreshTok, jti) := generateRefreshToken s.now s.nextJti user._id user.token_version
      let s1 : DB :=
        { s with
          refreshTokens :=
            s.refreshTokens ++ [⟨user._id, jti, getRefreshTokenExpiry s.now⟩],
          auditLogs := s.auditLogs ++ [⟨user._id, "login"⟩],
          users :=
            updateFirst (fun u => u._id == user._id)
              (fun u => { u with last_login := some s.now }) s.users,
          nextJti := s.nextJti + 1 }
      (.ok ⟨user._id, accessToken, refreshTok⟩, s1)

/-- Result of a successful `AuthService.refreshToken`. -/
structure RefreshResult where
  accessToken : AccessTok
  refreshToken : RefreshTok
deriving DecidableEq, Repr

/-- Models `AuthService.refreshToken(refreshTokenString)`: verify the token, look
up an unexpired store record by `(jti, userId)`, re-fetch the active user
and require a `token_version` match (deleting the record on user/version
mismatch), then rotate: delete the old record, mint a fresh pair, persist
the new record. Every failure becomes
`UnauthorizedError("Invalid refresh token")` via the surrounding catch. -/
def refreshToken (s : DB) (tok : RefreshTok) :
    Except AuthErr RefreshResult × DB :=
  match verifyRefreshToken s.now tok with
  | none => (.error (.unauthorized "Invalid refresh token"), s)
  | some payload =>
    match s.refreshTokens.find?
        (fun r => r.token == payload.jti && r.user_id == payload.userId
          && decide (s.now < r.expires_at)) with
    | none => (.error (.unauthorized "Invalid refresh token"), s)
    | some _ =>
      match s.users.find? (fun u => u._id == payload.userId && u.is_active) with
      | none =>
        (.error (.unauthorized "Invalid refresh token"),
         { s with refreshTokens := s.refreshTokens.eraseP (fun r => r.token == payload.jti) })
      | some user =>
        if user.token_version ≠ payload.tokenVersion then
          (.error (.unauthorized "Invalid refresh token"),
           { s with refreshTokens := s.refreshTokens.eraseP (fun r => r.token == payload.jti) })
        else
          let erased := s.refreshTokens.eraseP (fun r => r.token == payload.jti)
          let newAccess :=
            generateAccessToken s.now user._id user.email user.role user.token_version
          let (newRefresh, newJti) :=
            generateRefreshToken s.now s.nextJti user._id user.token_version
          (.ok ⟨newAccess, newRefresh⟩,
           { s with
             refreshTokens := erased ++ [⟨user._id, newJti, getRefreshTokenExpiry s.now⟩],
             nextJti := s.nextJti + 1 })

/-- Models `AuthService.logout(refreshTokenString)`: best effort — verify, delete
the matching record, write the `logout` audit entry; swallow all errors. -/
def logout (s : DB) (tok : RefreshTok) : DB :=
  match verifyRefreshToken s.now tok with
  | none => s
  | some payload =>
    { s with
      refreshTokens := s.refreshTokens.eraseP (fun r => r.token == payload.jti),
      auditLogs := s.auditLogs ++ [⟨payload.userId, "logout"⟩] }

/-- Models `AuthService.invalidateAllSessions(userId)`: `$inc` the user's
`token_version` by one and delete every refresh record of the user. -/
def invalidateAllSessions (s : DB) (userId : Nat) : DB :=
  let s1 : DB :=
    { s with
      users :=
        updateFirst (fun u => u._id == userId)
          (fun u => { u with token_version := u.token_version + 1 }) s.users }
  { s1 with refreshTokens := s1.refreshTokens.filter (fun r => !(r.user_id == userId)) }

/-- Models `AuthService.cleanupExpiredTokens()`: delete all records with
`expires_at` in the past. -/
def cleanupExpiredTokens (s : DB) : DB :=
  { s with refreshTokens := s.refreshTokens.filter (fun r => !(decide (r.expires_at < s.now))) }

/-- Models `AuthService.requestPasswordReset(email)`: if no active user matches,
log a line and return successfully; otherwise mint a reset token, persist
its record, then attempt the email (`mailOk` models whether the SMTP send
succeeds — a send failure is an uncaught exception, thrown after the
record was persisted), then write the audit entry. -/
def requestPasswordReset (mailOk : Bool) (s : DB) (email : String) :
    Except AuthErr Unit × DB :=
  match s.users.find? (fun u => u.email == email && u.is_active) with
  | none =>
    (.ok (), { s with logLines := s.logLines ++ ["no active user: " ++ email] })
  | some user =>
    let (_resetTok, jti) :=
      generatePasswordResetToken s.now s.nextJti user._id user.token_version
    let s1 : DB :=
      { s with
        passwordResets :=
          s.passwordResets ++ [⟨user._id, jti, false, none, getPasswordResetExpiry s.now⟩],
        nextJti := s.nextJti + 1 }
    if mailOk then
      let s2 : DB :=
        { s1 with
          sentMails := s1.sentMails ++ [⟨user.email, "Socio-Fi - Password reset"⟩],
          auditLogs := s1.auditLogs ++ [⟨user._id, "request_password_reset"⟩] }
      (.ok (), s2)
    else
      (.error (.generic "mail send failed"), s1)

/-- Marking a password-reset record consumed, as `resetPassword` does:
`$set: { used: true, used_at: now }`. -/
def markUsed (t : Nat) (r : ResetRecord) : ResetRecord :=
  { r with used := true, used_at := some t }

/-- Models `AuthService.resetPassword(tokenString, newPassword)`: verify the
token, require a decoded `jti`, look up a store record with that `jti`,
`used=false` and unexpired; mark the record used (with timestamp) FIRST;
then re-fetch the active user, hash and store the new password while
incrementing `token_version`, purge the user's refresh records and write
the audit entry. Every failure becomes
`UnauthorizedError('Invalid or expired password reset token')`, but writes
made before the throw persist. -/
def resetPassword (A : Argon2) (s : DB) (tok : ResetTok) (newPassword : String) :
    Except AuthErr Unit × DB :=
  match verifyPasswordResetToken s.now tok with
  | none => (.error (.unauthorized "Invalid or expired password reset token"), s)
  | some payload =>
    match payload.jti with
    | none => (.error (.unauthorized "Invalid or expired password reset token"), s)
    | some jti =>
      match s.passwordResets.find?
          (fun r => r.token == jti && !r.used && decide (s.now < r.expires_at)) with
      | none => (.error (.unauthorized "Invalid or expired password reset token"), s)
      | some _record =>
        let s1 : DB :=
          { s with
            passwordResets :=
              updateFirst (fun r => r.token == jti) (markUsed s.now) s.passwordResets }
        match s1.users.find? (fun u => u._id == payload.userId && u.is_active) with
        | none => (.error (.unauthorized "Invalid or expired password reset token"), s1)
        | some user =>
          let hashed := A.hash newPassword
          let s2 : DB :=
            { s1 with
              users :=
                updateFirst (fun u => u._id == user._id)
                  (fun u => { u with password_hash := hashed,
                                     token_version := u.token_version + 1 }) s1.users }
          let s3 : DB :=
            { s2 with
              refreshTokens := s2.refreshTokens.filter (fun r => !(r.user_id == user._id)),
              auditLogs := s2.auditLogs ++ [⟨user._id, "reset_password"⟩] }
          (.ok (), s3)

/-! ### Middleware (src/middleware/auth.ts) -/

/-- The identity attached to `req.user`. -/
structure Identity where
  id : Nat
  email : String
  role : String
  tokenVersion : Nat
deriving DecidableEq, Repr

/-- Models `requireAuth`: extract the bearer token, verify it, load the user,
require `is_active` and a `token_version` match, and attach the identity;
any failure is forwarded as an error. -/
def requireAuth (s : DB) (hdr : AuthHeader) : Except AuthErr Identity :=
  match extractBearerToken hdr with
  | none => .error (.unauthorized "Access token required")
  | some tok =>
    match verifyAccessToken s.now tok with
    | none => .error (.generic "Invalid access token")
    | some payload =>
      match s.users.find? (fun u => u._id == payload.userId) with
      | none => .error (.unauthorized "User not found")
      | some user =>
        if !user.is_active then .error (.unauthorized "Account is deactivated")
        else if user.token_version ≠ payload.tokenVersion then
          .error (.unauthorized "Token has been invalidated")
        else .ok ⟨user._id, user.email, user.role, user.token_version⟩

/-- Models `optionalAuth`: like `requireAuth` but it never forwards an error —
missing token, failed verification, missing/inactive user or version
mismatch all fall through to `next()` with `req.user` unset; the identity
is attached only when every check passes. -/
def optionalAuth (s : DB) (hdr : AuthHeader) : Except AuthErr (Option Identity) :=
  match extractBearerToken hdr with
  | none => .ok none
  | some tok =>
    match verifyAccessToken s.now tok with
    | none => .ok none
    | some payload =>
      match s.users.find? (fun u => u._id == payload.userId) with
      | none => .ok none
      | some user =>
        if user.is_active && user.token_version == payload.tokenVersion then
          .ok (some ⟨user._id, user.email, user.role, user.token_version⟩)
        else
          .ok none

/-! ### AuthController (the controller revision in the repository) -/

/-- Models `AuthController.invalidateSessions`: requires `req.user`, then — as
written in the source — calls `authService.invalidateAllSessions(req.user.id)`
twice in a row before clearing the cookie and responding. -/
def invalidateSessionsHandler (s : DB) (reqUser : Option Identity) :
    Except String Unit × DB :=
  match reqUser with
  | none => (.error "Authentication required", s)
  | some u =>
    let s1 := invalidateAllSessions s u.id
    let s2 := invalidateAllSessions s1 u.id
    (.ok (), s2)

/-! ### Generic lemmas about the Mongo-on-lists helpers -/

/-- In a list whose keys are pairwise distinct, after erasing the first
element with key `k` no element with key `k` remains. -/
theorem mem_eraseP_key_ne {α : Type} (f : α → Nat) (k : Nat) :
    ∀ (l : List α), (l.map f).Nodup →
      ∀ x ∈ l.eraseP (fun a => f a == k), ¬ (f x = k) := by
  intro l
  induction l with
  | nil =>
    intro _ x hx
    simp [List.eraseP] at hx
  | cons a t ih =>
    intro hnd x hx
    have hnd' : f a ∉ t.map f ∧ (t.map f).Nodup := by
      simpa [List.nodup_cons] using hnd
    rw [List.eraseP_cons] at hx
    by_cases ha : f a = k
    · have hba : (f a == k) = true := by simp [ha]
      rw [hba] at hx
      simp only [cond_true] at hx
      intro hk
      apply hnd'.1
      have hfa : f x = f a := by rw [hk, ha]
      rw [← hfa]
      exact List.mem_map_of_mem f hx
    · have hba : (f a == k) = false := by simp [ha]
      rw [hba] at hx
      simp only [cond_false, List.mem_cons] at hx
      rcases hx with rfl | hx
      · exact ha
      · exact ih hnd'.2 x hx

/-- Mongo `updateOne` then `findOne` with the same filter: if the filter
previously matched `u` and `g` preserves the filter, the lookup now
returns `g u`. -/
theorem find?_updateFirst_of_found {α : Type} (p : α → Bool) (g : α → α)
    (hg : ∀ a, p a = true → p (g a) = true) :
    ∀ (l : List α) (u : α), l.find? p = some u →
      (updateFirst p g l).find? p = some (g u) := by
  intro l
  induction l with
  | nil => intro u hu; simp [List.find?] at hu
  | cons a t ih =>
    intro u hu
    by_cases ha : p a = true
    · rw [List.find?_cons_of_pos _ ha] at hu
      cases hu
      rw [updateFirst, if_pos ha]
      exact List.find?_cons_of_pos _ (hg a ha)
    · have ha' : ¬ p a := by simpa using ha
      rw [List.find?_cons_of_neg _ ha'] at hu
      rw [updateFirst, if_neg ha]
      rw [List.find?_cons_of_neg _ ha']
      exact ih u hu

/-- After `resetPassword` marks the single record carrying `jti` as used,
no record passes the `used=false` lookup for that `jti` again (the store
has pairwise-distinct jtis by the unique index on `token`). -/
theorem find?_after_markUsed_none (jti t now2 : Nat) :
    ∀ (l : List ResetRecord), (l.map (fun r => r.token)).Nodup →
      (updateFirst (fun r => r.token == jti) (markUsed t) l).find?
        (fun r => r.token == jti && !r.used && decide (now2 < r.expires_at)) = none := by
  intro l
  induction l with
  | nil => intro _; simp [updateFirst]
  | cons a tl ih =>
    intro hnd
    have hnd' : a.token ∉ tl.map (fun r => r.token) ∧
        (tl.map (fun r => r.token)).Nodup := by
      simpa [List.nodup_cons] using hnd
    by_cases ha : a.token = jti
    · rw [updateFirst, if_pos (by simp [ha])]
      rw [List.find?_cons_of_neg _ (by simp [markUsed])]
      apply List.find?_eq_none.mpr
      intro x hx
      have : ¬ (x.token = jti) := by
        intro hk
        exact hnd'.1 (by
          rw [ha, ← hk]
          exact List.mem_map_of_mem _ hx)
      simp [this]
    · rw [updateFirst, if_neg (by simp [ha])]
      rw [List.find?_cons_of_neg _ (by simp [ha])]
      exact ih hnd'.2

/-! ### Concrete sample data used by witnesses and counterexamples -/

/-- An argon2 instance whose `verify` raises on every call, as the real
library does on a malformed stored hash. -/
def argonRaises : Argon2 :=
  { verify := fun _ _ => .error (), hash := fun p => p }

/-- An argon2 instance where `hash pw` prepends a tag and `verify`
returns whether the stored hash matches that scheme; it never raises. -/
def argonExact : Argon2 :=
  { verify := fun h pw => .ok (h == "hash:" ++ pw), hash := fun pw => "hash:" ++ pw }

/-- A sample active user. -/
def sampleUser : User :=
  { _id := 1, name := "u", email := "a@x", password_hash := "hash:secret",
    role := "admin", is_active := true, token_version := 0 }

/-- A sample inactive user. -/
def sampleInactiveUser : User :=
  { _id := 2, name := "v", email := "b@x", password_hash := "hash:other",
    role := "viewer", is_active := false, token_version := 0 }

/-- A sample database: one active user, one inactive user, one live
refresh record (jti 0) for the active user, one unconsumed reset record
(jti 5), clock at 1000. -/
def sampleDB : DB :=
  { users := [sampleUser, sampleInactiveUser],
    refreshTokens := [⟨1, 0, 2000⟩],
    passwordResets := [⟨1, 5, false, none, 2000⟩],
    auditLogs := [], sentMails := [], logLines := [],
    nextJti := 6, now := 1000 }

/-- The identity `requireAuth` would attach for `sampleUser`. -/
def sampleIdentity : Identity :=
  { id := 1, email := "a@x", role := "admin", tokenVersion := 0 }

/-! ### Claim theorems -/

/-- C3 (code bug): the controller's invalidate-sessions handler, as
written, calls `authService.invalidateAllSessions(req.user.id)` twice in
a row, so one authenticated request increments the user's
`token_version` by two, not by one; the claim's refresh-token purge does
hold. Evaluated at a concrete state with the target user at version 0. -/
theorem C3_controller_double_bump :
    ((invalidateSessionsHandler sampleDB (some sampleIdentity)).2.users.map
        (fun u => u.token_version) = [2, 0]) ∧
    (invalidateSessionsHandler sampleDB (some sampleIdentity)).2.refreshTokens = [] ∧
    ¬ ((invalidateSessionsHandler sampleDB (some sampleIdentity)).2.users.map
        (fun u => u.token_version) = [1, 0]) := by
  refine ⟨rfl, rfl, by decide⟩

/-- C6 (amended): when the password-verification library raises (for
example on a malformed stored hash), `login` does not catch the error:
it propagates to the caller instead of being converted into the
`InvalidCredentials` failure, and the state is left unchanged. -/
theorem C6_login_library_error_propagates (A : Argon2) (s : DB)
    (email password ip : String) (user : User)
    (hfind : s.users.find? (fun u => u.email == email && u.is_active) = some user)
    (herr : A.verify user.password_hash password = .error ()) :
    login A s email password ip = (.error .libraryError, s) := by
  simp [login, hfind, herr]

/-- C6 witness: the amended theorem applied at a concrete state whose
stored hash makes the library raise. -/
theorem C6_login_library_error_propagates_witness :
    login argonRaises sampleDB "a@x" "pw" "ip" = (.error .libraryError, sampleDB) :=
  C6_login_library_error_propagates argonRaises sampleDB "a@x" "pw" "ip"
    sampleUser (by decide) rfl

/-- C6 counterexample: at the same concrete input the claim's stated
outcome — failing with the `InvalidCredentials` error — does not happen:
the result is the propagated library error, a different error value that
reaches the generic 500 handler, not a 401. -/
theorem C6_claim_counterexample :
    (login argonRaises sampleDB "a@x" "pw" "ip").1 = .error .libraryError ∧
    ¬ ((login argonRaises sampleDB "a@x" "pw" "ip").1
        = .error (.unauthorized "Invalid credentials")) ∧
    AuthErr.libraryError.statusCode = 500 := by
  refine ⟨rfl, ?_, rfl⟩
  intro h
  rw [show (login argonRaises sampleDB "a@x" "pw" "ip").1
      = Except.error AuthErr.libraryError from rfl] at h
  simp at h

/-- C7: login failure is observationally uniform — (a) unknown email,
(b) matching user inactive, (c) active user with a wrong password all
produce the very same error value `UnauthorizedError("Invalid
credentials")`, hence the identical message string and status 401. -/
theorem C7_login_failure_uniform (A : Argon2)
    (s1 s2 s3 : DB) (e1 e2 e3 p1 p2 p3 ip1 ip2 ip3 : String)
    (h1 : ∀ u ∈ s1.users, ¬ (u.email = e1))
    (h2e : ∃ u ∈ s2.users, u.email = e2 ∧ u.is_active = false)
    (h2n : ∀ u ∈ s2.users, u.email = e2 → u.is_active = false)
    (u3 : User)
    (h3 : s3.users.find? (fun u => u.email == e3 && u.is_active) = some u3)
    (h3p : A.verify u3.password_hash p3 = .ok false) :
    (login A s1 e1 p1 ip1).1 = .error (.unauthorized "Invalid credentials") ∧
    (login A s2 e2 p2 ip2).1 = .error (.unauthorized "Invalid credentials") ∧
    (login A s3 e3 p3 ip3).1 = .error (.unauthorized "Invalid credentials") ∧
    (AuthErr.unauthorized "Invalid credentials").statusCode = 401 := by
  have hf1 : s1.users.find? (fun u => u.email == e1 && u.is_active) = none := by
    apply List.find?_eq_none.mpr
    intro u hu
    simp [h1 u hu]
  have hf2 : s2.users.find? (fun u => u.email == e2 && u.is_active) = none := by
    apply List.find?_eq_none.mpr
    intro u hu
    by_cases he : u.email = e2
    · simp [he, h2n u hu he]
    · simp [he]
  refine ⟨?_, ?_, ?_, rfl⟩
  · simp [login, hf1]
  · simp [login, hf2]
  · simp [login, h3, h3p]

/-- C7 witness: the uniformity theorem applied at concrete states — an
empty directory, the sample inactive user, and the sample active user
with a wrong password. -/
theorem C7_login_failure_uniform_witness :
    (login argonExact { sampleDB with users := [] } "a@x" "p" "ip").1
      = .error (.unauthorized "Invalid credentials") ∧
    (login argonExact { sampleDB with users := [sampleInactiveUser] } "b@x" "p" "ip").1
      = .error (.unauthorized "Invalid credentials") ∧
    (login argonExact sampleDB "a@x" "wrong" "ip").1
      = .error (.unauthorized "Invalid credentials") ∧
    (AuthErr.unauthorized "Invalid credentials").statusCode = 401 :=
  C7_login_failure_uniform argonExact
    { sampleDB with users := [] } { sampleDB with users := [sampleInactiveUser] } sampleDB
    "a@x" "b@x" "a@x" "p" "p" "wrong" "ip" "ip" "ip"
    (by intro u hu; simp at hu)
    ⟨sampleInactiveUser, by decide, by decide, by decide⟩
    (by intro u hu; simp at hu; subst hu; decide)
    sampleUser (by decide) rfl

/-- C8: requesting a password reset for an email with no matching active
user returns success-shaped, creates no store record, sends no mail, and
changes no persistent state (only the internal log line). -/
theorem C8_request_reset_silent_on_unknown_email (mailOk : Bool) (s : DB) (email : String)
    (h : s.users.find? (fun u => u.email == email && u.is_active) = none) :
    (requestPasswordReset mailOk s email).1 = .ok () ∧
    (requestPasswordReset mailOk s email).2.users = s.users ∧
    (requestPasswordReset mailOk s email).2.refreshTokens = s.refreshTokens ∧
    (requestPasswordReset mailOk s email).2.passwordResets = s.passwordResets ∧
    (requestPasswordReset mailOk s email).2.auditLogs = s.auditLogs ∧
    (requestPasswordReset mailOk s email).2.sentMails = s.sentMails ∧
    (requestPasswordReset mailOk s email).2.nextJti = s.nextJti := by
  simp [requestPasswordReset, h]

/-- C8 witness: the silence theorem applied at the sample database and an
unregistered email. -/
theorem C8_request_reset_silent_witness :
    (requestPasswordReset true sampleDB "notregistered@x.com").1 = .ok () ∧
    (requestPasswordReset true sampleDB "notregistered@x.com").2.passwordResets
      = sampleDB.passwordResets ∧
    (requestPasswordReset true sampleDB "notregistered@x.com").2.sentMails
      = sampleDB.sentMails := by
  have h := C8_request_reset_silent_on_unknown_email true sampleDB
    "notregistered@x.com" (by decide)
  exact ⟨h.1, h.2.2.2.1, h.2.2.2.2.2.1⟩

/-- C9: for an existing active user the reset record is persisted before
the mail is attempted — when the send fails, the call errors but the
record with the issued jti is already in the store (and it is there on
the success path as well). -/
theorem C9_record_persisted_before_send (s : DB) (email : String) (user : User)
    (h : s.users.find? (fun u => u.email == email && u.is_active) = some user) :
    (requestPasswordReset false s email).1 = .error (.generic "mail send failed") ∧
    ∀ mailOk : Bool,
      (⟨user._id, s.nextJti, false, none, getPasswordResetExpiry s.now⟩ : ResetRecord)
        ∈ (requestPasswordReset mailOk s email).2.passwordResets := by
  constructor
  · simp [requestPasswordReset, h]
  · intro mailOk
    cases mailOk <;> simp [requestPasswordReset, h, generatePasswordResetToken]

/-- C9 witness: the persist-before-send theorem applied at the sample
database and the registered email. -/
theorem C9_record_persisted_before_send_witness :
    (requestPasswordReset false sampleDB "a@x").1 = .error (.generic "mail send failed") ∧
    (⟨1, 6, false, none, getPasswordResetExpiry 1000⟩ : ResetRecord)
      ∈ (requestPasswordReset false sampleDB "a@x").2.passwordResets := by
  have h := C9_record_persisted_before_send sampleDB "a@x" sampleUser (by decide)
  exact ⟨h.1, h.2 false⟩

/-- C10: `optionalAuth` never rejects — on every input it completes
without error, and it attaches the identity exactly when the token is
validly signed and unexpired, the user exists and is active, and the
token version matches; otherwise `req.user` stays unset. -/
theorem C10_optionalAuth_never_rejects (s : DB) (hdr : AuthHeader) :
    (∃ r, optionalAuth s hdr = .ok r) ∧
    ∀ i : Identity, (optionalAuth s hdr = .ok (some i) ↔
      ∃ c : AccessClaims, ∃ user : User,
        hdr = .bearer (.signed c) ∧ s.now < c.exp ∧
        s.users.find? (fun u => u._id == c.userId) = some user ∧
        user.is_active = true ∧ user.token_version = c.tokenVersion ∧
        i = ⟨user._id, user.email, user.role, user.token_version⟩) := by
  cases hdr with
  | missing =>
    exact ⟨⟨none, rfl⟩, by intro i; simp [optionalAuth, extractBearerToken]⟩
  | notBearer =>
    exact ⟨⟨none, rfl⟩, by intro i; simp [optionalAuth, extractBearerToken]⟩
  | bearer t =>
    cases t with
    | malformed =>
      exact ⟨⟨none, rfl⟩, by
        intro i
        simp [optionalAuth, extractBearerToken, verifyAccessToken]⟩
    | signed c =>
      by_cases hexp : s.now < c.exp
      · cases hf : s.users.find? (fun u => u._id == c.userId) with
        | none =>
          refine ⟨⟨none, ?_⟩, ?_⟩
          · simp [optionalAuth, extractBearerToken, verifyAccessToken, hexp, hf]
          · intro i
            simp [optionalAuth, extractBearerToken, verifyAccessToken, hexp, hf]
        | some user =>
          by_cases hok : (user.is_active && user.token_version == c.tokenVersion) = true
          · refine ⟨⟨some ⟨user._id, user.email, user.role, user.token_version⟩, ?_⟩, ?_⟩
            · simp [optionalAuth, extractBearerToken, verifyAccessToken, hexp, hf, hok]
            · intro i
              constructor
              · intro h
                have hok2 : user.is_active = true ∧
                    (user.token_version == c.tokenVersion) = true := by
                  simpa using hok
                refine ⟨c, user, rfl, hexp, hf, hok2.1, by simpa using hok2.2, ?_⟩
                simp [optionalAuth, extractBearerToken, verifyAccessToken, hexp, hf, hok] at h
                exact h.symm
              · rintro ⟨c2, user2, hc2, hexp2, hf2, hact2, hver2, hi⟩
                have hcc : c2 = c := by
                  injection hc2 with h1
                  injection h1 with h2
                  exact h2.symm
                subst hcc
                rw [hf] at hf2
                injection hf2 with huu
                subst huu
                subst hi
                simp [optionalAuth, extractBearerToken, verifyAccessToken, hexp, hf, hok]
          · refine ⟨⟨none, ?_⟩, ?_⟩
            · simp [optionalAuth, extractBearerToken, verifyAccessToken, hexp, hf, hok]
            · intro i
              constructor
              · intro h
                simp [optionalAuth, extractBearerToken, verifyAccessToken, hexp, hf, hok] at h
              · rintro ⟨c2, user2, hc2, hexp2, hf2, hact2, hver2, hi⟩
                have hcc : c2 = c := by
                  injection hc2 with h1
                  injection h1 with h2
                  exact h2.symm
                subst hcc
                rw [hf] at hf2
                injection hf2 with huu
                subst huu
                exact absurd (by simp [hact2, hver2]) hok
      · refine ⟨⟨none, ?_⟩, ?_⟩
        · simp [optionalAuth, extractBearerToken, verifyAccessToken, hexp]
        · intro i
          constructor
          · intro h
            simp [optionalAuth, extractBearerToken, verifyAccessToken, hexp] at h
          · rintro ⟨c2, user2, hc2, hexp2, hf2, hact2, hver2, hi⟩
            have hcc : c2 = c := by
              injection hc2 with h1
              injection h1 with h2
              exact h2.symm
            subst hcc
            exact absurd hexp2 hexp

/-- A database holding one stale (expired) refresh record with jti 9 for
the sample active user; the clock is already past the record's expiry. -/
def staleDB : DB :=
  { users := [sampleUser],
    refreshTokens := [⟨1, 9, 500⟩],
    passwordResets := [], auditLogs := [], sentMails := [], logLines := [],
    nextJti := 10, now := 1000 }

/-- A cryptographically valid refresh token whose store record in
`staleDB` is expired: user 1, version 0, jti 9, token-level expiry still
in the future. -/
def staleTok : RefreshTok := .signed ⟨1, 0, 9, 605800⟩

/-- C4 counterexample: the claim says the failed `Refresh` deletes the
stale record; at this concrete input the call does fail with
`InvalidRefreshToken`, but the expired record is still in the store
afterwards — the filtered `findOne` never returned it, so no delete ran. -/
theorem C4_claim_counterexample :
    (refreshToken staleDB staleTok).1 = .error (.unauthorized "Invalid refresh token") ∧
    (⟨1, 9, 500⟩ : RefreshRecord) ∈ (refreshToken staleDB staleTok).2.refreshTokens := by
  exact ⟨rfl, by decide⟩

/-- C4 (amended): with a cryptographically valid refresh token whose
store records for its jti are all expired, `Refresh` fails with
`InvalidRefreshToken` but does NOT delete the stale record — the state
comes back unchanged and the record is still present (only
`cleanupExpiredTokens` removes it later). -/
theorem C4_refresh_expired_record_kept (s : DB) (c : RefreshClaims) (rec : RefreshRecord)
    (hsig : s.now < c.exp)
    (hrec : rec ∈ s.refreshTokens) (hkey : rec.token = c.jti)
    (hexp : rec.expires_at ≤ s.now)
    (hall : ∀ r ∈ s.refreshTokens, r.token = c.jti → r.expires_at ≤ s.now) :
    refreshToken s (.signed c) = (.error (.unauthorized "Invalid refresh token"), s) ∧
    rec ∈ (refreshToken s (.signed c)).2.refreshTokens := by
  have hnone : s.refreshTokens.find?
      (fun r => r.token == c.jti && r.user_id == c.userId
        && decide (s.now < r.expires_at)) = none := by
    apply List.find?_eq_none.mpr
    intro r hr
    simp only [Bool.and_eq_true, beq_iff_eq, decide_eq_true_eq]
    rintro ⟨⟨hk, -⟩, hlt⟩
    exact absurd hlt (by have := hall r hr hk; omega)
  have hres : refreshToken s (.signed c)
      = (.error (.unauthorized "Invalid refresh token"), s) := by
    simp [refreshToken, verifyRefreshToken, hsig, hnone]
  exact ⟨hres, by rw [hres]; exact hrec⟩

/-- C4 amended-theorem witness: applied at the concrete stale store. -/
theorem C4_refresh_expired_record_kept_witness :
    refreshToken staleDB staleTok
      = (.error (.unauthorized "Invalid refresh token"), staleDB) ∧
    (⟨1, 9, 500⟩ : RefreshRecord) ∈ (refreshToken staleDB staleTok).2.refreshTokens :=
  C4_refresh_expired_record_kept staleDB ⟨1, 0, 9, 605800⟩ ⟨1, 9, 500⟩
    (by decide) (by decide) rfl (by decide)
    (by intro r hr hk; simp [staleDB] at hr; subst hr; decide)

/-- The clock field is untouched by `resetPassword`, whichever branch
runs. -/
theorem resetPassword_now (A : Argon2) (s : DB) (tok : ResetTok) (p : String) :
    (resetPassword A s tok p).2.now = s.now := by
  unfold resetPassword
  split
  · rfl
  · split
    · rfl
    · split
      · rfl
      · dsimp only
        split
        · rfl
        · rfl

/-- When no unconsumed, unexpired record carries the token's jti,
`resetPassword` fails with the reset-token error. -/
theorem resetPassword_fails_of_no_record (A : Argon2) (s : DB) (c : ResetClaims)
    (p : String)
    (hfind : s.passwordResets.find?
      (fun r => r.token == c.jti && !r.used && decide (s.now < r.expires_at)) = none) :
    (resetPassword A s (.signed c) p).1
      = .error (.unauthorized "Invalid or expired password reset token") := by
  by_cases hexp : s.now < c.exp
  · simp [resetPassword, verifyPasswordResetToken, hexp, hfind]
  · simp [resetPassword, verifyPasswordResetToken, hexp]

/-- C5: password reset is single-use with mark-used-first ordering.
With a valid signed reset token whose store record is found unconsumed
and unexpired (and with jtis unique, per the store's unique index):
(1) whatever happens afterwards, the post-state store is exactly the
store with that record marked `used=true` / `used_at=now`;
(2) if the later user-lookup step fails, the call errors but the token
is already burned and no password hash was touched;
(3) after a successful reset, replaying the same token fails with
`InvalidResetToken` even though its expiry window is unchanged. -/
theorem C5_reset_password_single_use (A : Argon2) (s : DB) (c : ResetClaims)
    (p : String) (rec : ResetRecord)
    (hexp : s.now < c.exp)
    (hrec : s.passwordResets.find?
      (fun r => r.token == c.jti && !r.used && decide (s.now < r.expires_at)) = some rec)
    (hnd : (s.passwordResets.map (fun r => r.token)).Nodup) :
    ((resetPassword A s (.signed c) p).2.passwordResets
      = updateFirst (fun r => r.token == c.jti) (markUsed s.now) s.passwordResets) ∧
    (s.users.find? (fun x => x._id == c.userId && x.is_active) = none →
      (resetPassword A s (.signed c) p).1
          = .error (.unauthorized "Invalid or expired password reset token") ∧
      (resetPassword A s (.signed c) p).2.users = s.users) ∧
    ((resetPassword A s (.signed c) p).1 = .ok () →
      ∀ p2 : String,
        (resetPassword A (resetPassword A s (.signed c) p).2 (.signed c) p2).1
          = .error (.unauthorized "Invalid or expired password reset token")) := by
  refine ⟨?_, ?_, ?_⟩
  · cases hu : s.users.find? (fun x => x._id == c.userId && x.is_active) with
    | none => simp [resetPassword, verifyPasswordResetToken, hexp, hrec, hu]
    | some user => simp [resetPassword, verifyPasswordResetToken, hexp, hrec, hu]
  · intro hu
    constructor
    · simp [resetPassword, verifyPasswordResetToken, hexp, hrec, hu]
    · simp [resetPassword, verifyPasswordResetToken, hexp, hrec, hu]
  · intro hok p2
    have hstate : (resetPassword A s (.signed c) p).2.passwordResets
        = updateFirst (fun r => r.token == c.jti) (markUsed s.now) s.passwordResets := by
      cases hu : s.users.find? (fun x => x._id == c.userId && x.is_active) with
      | none => simp [resetPassword, verifyPasswordResetToken, hexp, hrec, hu]
      | some user => simp [resetPassword, verifyPasswordResetToken, hexp, hrec, hu]
    apply resetPassword_fails_of_no_record
    rw [resetPassword_now, hstate]
    exact find?_after_markUsed_none c.jti s.now s.now s.passwordResets hnd

/-- C5 witness: the single-use theorem applied at the sample database,
whose reset record (jti 5) is unconsumed and unexpired; the replay after
the successful reset fails. -/
theorem C5_reset_password_single_use_witness :
    ((resetPassword argonExact sampleDB (.signed ⟨1, 0, 5, 4600⟩) "newpw").2.passwordResets
      = updateFirst (fun r => r.token == (5 : Nat)) (markUsed 1000) sampleDB.passwordResets) ∧
    ((resetPassword argonExact sampleDB (.signed ⟨1, 0, 5, 4600⟩) "newpw").1 = .ok () →
      ∀ p2 : String,
        (resetPassword argonExact
            (resetPassword argonExact sampleDB (.signed ⟨1, 0, 5, 4600⟩) "newpw").2
            (.signed ⟨1, 0, 5, 4600⟩) p2).1
          = .error (.unauthorized "Invalid or expired password reset token")) := by
  have h := C5_reset_password_single_use argonExact sampleDB ⟨1, 0, 5, 4600⟩ "newpw"
    ⟨1, 5, false, none, 2000⟩ (by decide) (by decide) (by decide)
  exact ⟨h.1, h.2.2⟩

/-- C2: after `InvalidateAllSessions(u)`, an access token issued for `u`
before the call (its embedded version is at most `u`'s pre-call version,
since versions only grow) is rejected by `requireAuth` — the bumped
version can no longer match — and a refresh token issued for `u` is
rejected by `Refresh`, its store record having been deleted. -/
theorem C2_invalidate_all_sessions_rejects (s : DB) (u : User)
    (hfind : s.users.find? (fun x => x._id == u._id) = some u)
    (ca : AccessClaims) (cr : RefreshClaims)
    (hcaid : ca.userId = u._id) (hcav : ca.tokenVersion ≤ u.token_version)
    (hcrid : cr.userId = u._id) :
    ((requireAuth (invalidateAllSessions s u._id) (.bearer (.signed ca))).isOk = false) ∧
    (refreshToken (invalidateAllSessions s u._id) (.signed cr)).1
      = .error (.unauthorized "Invalid refresh token") := by
  constructor
  · by_cases hexp : s.now < ca.exp
    · have hupd : (updateFirst (fun x => x._id == u._id)
          (fun x => { x with token_version := x.token_version + 1 }) s.users).find?
          (fun x => x._id == ca.userId)
          = some { u with token_version := u.token_version + 1 } := by
        rw [hcaid]
        exact find?_updateFirst_of_found (fun x => x._id == u._id)
          (fun x => { x with token_version := x.token_version + 1 })
          (fun a ha => ha) s.users u hfind
      have hver : ¬ (u.token_version + 1 = ca.tokenVersion) := by omega
      by_cases hact : u.is_active = true
      · simp [requireAuth, extractBearerToken, verifyAccessToken, invalidateAllSessions,
          Except.isOk, Except.toBool, hexp, hupd, hact, hver]
      · simp [requireAuth, extractBearerToken, verifyAccessToken, invalidateAllSessions,
          Except.isOk, Except.toBool, hexp, hupd, hact]
    · simp [requireAuth, extractBearerToken, verifyAccessToken, invalidateAllSessions,
        Except.isOk, Except.toBool, hexp]
  · by_cases hexp : s.now < cr.exp
    · have hfn : ((s.refreshTokens.filter (fun r => !(r.user_id == u._id))).find?
          (fun r => r.token == cr.jti && r.user_id == cr.userId
            && decide (s.now < r.expires_at))) = none := by
        apply List.find?_eq_none.mpr
        intro x hx
        have hxne : ¬ (x.user_id = u._id) := by
          have h2 := List.mem_filter.mp hx
          simpa using h2.2
        simp only [Bool.and_eq_true, beq_iff_eq, decide_eq_true_eq]
        rintro ⟨⟨-, hid⟩, -⟩
        exact hxne (hcrid ▸ hid)
      simp [refreshToken, verifyRefreshToken, invalidateAllSessions, hexp, hfn]
    · simp [refreshToken, verifyRefreshToken, invalidateAllSessions, hexp]

/-- C2 witness: applied at the sample database for the sample user, with
a live access token at the current version and the refresh token backing
the stored record (jti 0). -/
theorem C2_invalidate_all_sessions_rejects_witness :
    ((requireAuth (invalidateAllSessions sampleDB 1)
        (.bearer (.signed ⟨1, "a@x", "admin", 0, 1900⟩))).isOk = false) ∧
    (refreshToken (invalidateAllSessions sampleDB 1) (.signed ⟨1, 0, 0, 605800⟩)).1
      = .error (.unauthorized "Invalid refresh token") :=
  C2_invalidate_all_sessions_rejects sampleDB sampleUser (by decide)
    ⟨1, "a@x", "admin", 0, 1900⟩ ⟨1, 0, 0, 605800⟩ rfl (by decide) rfl

/-- Store well-formedness backing the rotation claim: the refresh
store's jtis are pairwise distinct (the unique index on `token`) and all
below the uuid-supply counter (`uuidv4` never repeats an issued jti). -/
def WFRefresh (s : DB) : Prop :=
  ((s.refreshTokens.map (fun r => r.token)).Nodup) ∧
  ∀ r ∈ s.refreshTokens, r.token < s.nextJti

/-- C1: refresh is strict single-use rotation — when `Refresh(r)`
succeeds, replaying the same token string against the resulting state
fails with `InvalidRefreshToken` (the first call deleted its store
record and the new record carries a fresh jti), and the refresh token
returned by the successful call is never the submitted one. -/
theorem C1_refresh_single_use_rotation (s : DB) (tok : RefreshTok)
    (hWF : WFRefresh s) (res : RefreshResult) (s2 : DB)
    (hsucc : refreshToken s tok = (.ok res, s2)) :
    (refreshToken s2 tok).1 = .error (.unauthorized "Invalid refresh token") ∧
    res.refreshToken ≠ tok := by
  cases tok with
  | malformed =>
    simp only [refreshToken, verifyRefreshToken] at hsucc
    injection hsucc with h1 h2
    exact Except.noConfusion h1
  | signed c =>
    by_cases hexp : s.now < c.exp
    · simp only [refreshToken, verifyRefreshToken, if_pos hexp, generateAccessToken,
        generateRefreshToken, getRefreshTokenExpiry] at hsucc
      split at hsucc
      next heq1 =>
        injection hsucc with h1 h2
        exact Except.noConfusion h1
      next rec heq1 =>
        split at hsucc
        next heq2 =>
          injection hsucc with h1 h2
          exact Except.noConfusion h1
        next user heq2 =>
          split at hsucc
          next hver =>
            injection hsucc with h1 h2
            exact Except.noConfusion h1
          next hver =>
            injection hsucc with h1 h2
            injection h1 with hres
            subst h2
            subst hres
            have hpred := List.find?_some heq1
            have hmem := List.mem_of_find?_eq_some heq1
            have hkey : rec.token = c.jti := by
              simp only [Bool.and_eq_true, beq_iff_eq, decide_eq_true_eq] at hpred
              exact hpred.1.1
            have hjlt : c.jti < s.nextJti := hkey ▸ hWF.2 rec hmem
            have hfn : List.find?
                (fun r => r.token == c.jti && r.user_id == c.userId
                  && decide (s.now < r.expires_at))
                ((s.refreshTokens.eraseP (fun r => r.token == c.jti)) ++
                  [({ user_id := user._id, token := s.nextJti,
                      expires_at := s.now + 604800 } : RefreshRecord)]) = none := by
              apply List.find?_eq_none.mpr
              intro x hx
              rcases List.mem_append.mp hx with hx1 | hx2
              · have hne := mem_eraseP_key_ne (fun r => r.token) c.jti
                  s.refreshTokens hWF.1 x hx1
                simp only [Bool.and_eq_true, beq_iff_eq, decide_eq_true_eq]
                rintro ⟨⟨hk, -⟩, -⟩
                exact hne hk
              · have hx2e : x = (⟨user._id, s.nextJti, s.now + 604800⟩ : RefreshRecord) := by
                  simpa using hx2
                subst hx2e
                simp only [Bool.and_eq_true, beq_iff_eq, decide_eq_true_eq]
                rintro ⟨⟨hk, -⟩, -⟩
                exact absurd (show s.nextJti = c.jti from hk) (by omega)
            constructor
            · simp only [refreshToken, verifyRefreshToken]
              rw [if_pos hexp]
              simp only [hfn]
            · intro hcontr
              have hcontr2 : RefreshTok.signed
                  ⟨user._id, user.token_version, s.nextJti, s.now + 604800⟩
                  = RefreshTok.signed c := hcontr
              injection hcontr2 with hcc
              have hjeq : s.nextJti = c.jti := congrArg RefreshClaims.jti hcc
              omega
    · simp only [refreshToken, verifyRefreshToken, if_neg hexp] at hsucc
      injection hsucc with h1 h2
      exact Except.noConfusion h1

/-- The state produced by a successful refresh of the sample database's
stored token (jti 0): the old record is gone, a record with the fresh
jti 6 replaced it, and the uuid supply advanced. -/
def rotatedDB : DB :=
  { users := [sampleUser, sampleInactiveUser],
    refreshTokens := [⟨1, 6, 605800⟩],
    passwordResets := [⟨1, 5, false, none, 2000⟩],
    auditLogs := [], sentMails := [], logLines := [],
    nextJti := 7, now := 1000 }

/-- C1 witness: the rotation theorem applied at the sample database with
the stored refresh token (jti 0); the replay against the rotated state
fails and the returned token differs from the submitted one. -/
theorem C1_refresh_single_use_rotation_witness :
    (refreshToken rotatedDB (.signed ⟨1, 0, 0, 605800⟩)).1
      = .error (.unauthorized "Invalid refresh token") ∧
    (⟨.signed ⟨1, "a@x", "admin", 0, 1900⟩, .signed ⟨1, 0, 6, 605800⟩⟩
        : RefreshResult).refreshToken ≠ .signed ⟨1, 0, 0, 605800⟩ :=
  C1_refresh_single_use_rotation sampleDB (.signed ⟨1, 0, 0, 605800⟩)
    ⟨by decide, by decide⟩
    ⟨.signed ⟨1, "a@x", "admin", 0, 1900⟩, .signed ⟨1, 0, 6, 605800⟩⟩
    rotatedDB rfl

end Sociofi
